import Mathlib

/-!
Verification development for the Polymarket trading research framework.

Numbers are modelled as exact rationals (`ℚ`) except for the bot-score
computation, which uses real logarithms and is therefore modelled over `ℝ`.
Python `None` becomes `Option.none`; functions that can receive absent
inputs take `Option ℚ` arguments.
-/

/-! ## Streaming cascade detector (`src/strategies/a2_cascade.py`) -/

/-- One-step memory kept per instrument by the streaming detector. -/
structure A2State where
  last_mid : Option ℚ := none
  last_spread : Option ℚ := none
  last_depth5 : Option ℚ := none
deriving Repr, DecidableEq

/-- Parameters of the streaming detector, with the source's defaults. -/
structure A2Params where
  spread_mult : ℚ := 2
  depth_collapse : ℚ := 6/10
  sigma_k : ℚ := 2
deriving Repr, DecidableEq

/-- Signal emitted by the streaming detector `a2_detect`. -/
structure A2Signal where
  fired : Bool
  direction : Option String := none
  strength : ℚ := 0
  details : String := ""
deriving Repr, DecidableEq

/-- Condition 1 of `a2_detect`: spread expansion
(`med_spread > 0 and curr_spread >= p.spread_mult * med_spread`). -/
def a2SpreadExpansion (curr_spread med_spread : ℚ) (p : A2Params) : Bool :=
  decide (0 < med_spread ∧ p.spread_mult * med_spread ≤ curr_spread)

/-- Condition 2 of `a2_detect`: depth collapse
(`med_depth5 > 0 and curr_depth5 <= p.depth_collapse * med_depth5`). -/
def a2DepthCollapse (curr_depth5 med_depth5 : ℚ) (p : A2Params) : Bool :=
  decide (0 < med_depth5 ∧ curr_depth5 ≤ p.depth_collapse * med_depth5)

/-- Condition 3 of `a2_detect`: mid jump, evaluated only when the state holds
a previous midpoint (`curr_spread > 0 and |Δmid| >= p.sigma_k * curr_spread`). -/
def a2MidJump (curr_mid curr_spread : ℚ) (st : A2State) (p : A2Params) : Bool :=
  match st.last_mid with
  | none => false
  | some lm => decide (0 < curr_spread ∧ p.sigma_k * curr_spread ≤ |curr_mid - lm|)

/-- Number of the three conditions of `a2_detect` that hold. -/
def a2CondCount (curr_mid curr_spread curr_depth5 med_spread med_depth5 : ℚ)
    (st : A2State) (p : A2Params) : ℕ :=
  (if a2SpreadExpansion curr_spread med_spread p then 1 else 0) +
  (if a2DepthCollapse curr_depth5 med_depth5 p then 1 else 0) +
  (if a2MidJump curr_mid curr_spread st p then 1 else 0)

/-- Reason tags collected by `a2_detect`, in the source's order. -/
def a2Reasons (curr_mid curr_spread curr_depth5 med_spread med_depth5 : ℚ)
    (st : A2State) (p : A2Params) : List String :=
  (if a2SpreadExpansion curr_spread med_spread p then ["SPREAD_EXPANSION"] else []) ++
  (if a2DepthCollapse curr_depth5 med_depth5 p then ["DEPTH_COLLAPSE"] else []) ++
  (if a2MidJump curr_mid curr_spread st p then ["MID_JUMP"] else [])

/-- Streaming cascade detection, translated from `a2_detect` in
`src/strategies/a2_cascade.py`.  Missing current fields short-circuit to
`MISSING_DATA`; missing medians to `INSUFFICIENT_HISTORY`.  The signal fires
when at least two of the three conditions hold; its strength is
`min 1 (conds / 3)` and its direction comes from the sign of the mid delta
when a previous midpoint exists. -/
def a2_detect (curr_mid curr_spread curr_depth5 med_spread med_depth5 : Option ℚ)
    (st : A2State) (p : A2Params) : A2Signal :=
  match curr_mid, curr_spread, curr_depth5 with
  | some m, some s, some d =>
    match med_spread, med_depth5 with
    | some ms, some md =>
      let conds := a2CondCount m s d ms md st p
      let reasons := a2Reasons m s d ms md st p
      if 2 ≤ conds then
        { fired := true
          direction :=
            match st.last_mid with
            | none => none
            | some lm => some (if 0 < m - lm then "FADE_UP" else "FADE_DOWN")
          strength := min 1 ((conds : ℚ) / 3)
          details := String.intercalate "," reasons }
      else
        { fired := false
          details := if reasons = [] then "NO_CASCADE" else String.intercalate "," reasons }
    | _, _ => { fired := false, details := "INSUFFICIENT_HISTORY" }
  | _, _, _ => { fired := false, details := "MISSING_DATA" }

/-- Full evaluation of `a2_detect` on the spec's worked example
(`median_spread = 0.01`, `curr_spread = 0.025`, `median_depth5 = 1000`,
`curr_depth5 = 500`, no previous midpoint). -/
theorem a2_detect_example :
    a2_detect (some (1/2)) (some (25/1000)) (some 500) (some (1/100)) (some 1000)
      {} {} = { fired := true, direction := none, strength := 2/3,
                details := "SPREAD_EXPANSION,DEPTH_COLLAPSE" } := by
  norm_num [a2_detect, a2CondCount, a2Reasons, a2SpreadExpansion, a2DepthCollapse,
    a2MidJump, A2Params.spread_mult, A2Params.depth_collapse, A2Params.sigma_k]
  rfl

/-! ## Screening engine (`src/screening_engine.py`) -/

/-- Strategy family literal: `"A"` or `"H"`. -/
inductive StrategyFamily where
  | A : StrategyFamily
  | H : StrategyFamily
deriving Repr, DecidableEq

/-- Screening thresholds, with the source's defaults. -/
structure ScreeningConfig where
  equity : ℚ
  target_pos_frac : ℚ := 1/100
  depth5_min_mult_A : ℚ := 8
  vol24h_min_mult_A : ℚ := 20
  depth5_min_mult_H : ℚ := 3
  vol24h_min_mult_H : ℚ := 10
  exit_risk_max_A : ℚ := 1/10
  exit_risk_max_H : ℚ := 2/10
deriving Repr, DecidableEq

/-- Result record returned by `ScreeningEngine.screen`. -/
structure ScreeningResult where
  ok : Bool
  reason : String
  family : StrategyFamily
  S : ℚ
  exit_risk : Option ℚ
  depth5_min : ℚ
  vol24h_min : ℚ
deriving Repr, DecidableEq

namespace ScreeningEngine

/-- Target position size `S = equity * target_pos_frac`. -/
def S (cfg : ScreeningConfig) : ℚ := cfg.equity * cfg.target_pos_frac

/-- Per-family minimum depth threshold (`depth5_min_mult_* * S`). -/
def depth5Min (cfg : ScreeningConfig) (family : StrategyFamily) : ℚ :=
  match family with
  | .A => cfg.depth5_min_mult_A * S cfg
  | .H => cfg.depth5_min_mult_H * S cfg

/-- Per-family minimum 24h volume threshold (`vol24h_min_mult_* * S`). -/
def vol24hMin (cfg : ScreeningConfig) (family : StrategyFamily) : ℚ :=
  match family with
  | .A => cfg.vol24h_min_mult_A * S cfg
  | .H => cfg.vol24h_min_mult_H * S cfg

/-- Per-family maximum tolerated exit risk. -/
def exitRiskMax (cfg : ScreeningConfig) (family : StrategyFamily) : ℚ :=
  match family with
  | .A => cfg.exit_risk_max_A
  | .H => cfg.exit_risk_max_H

/-- Liquidity screen, translated from `ScreeningEngine.screen` in
`src/screening_engine.py`.  The failure ladder is evaluated top to bottom and
the first applicable reason wins; `exit_risk` is only computed once the book,
depth and volume checks have all passed. -/
def screen (cfg : ScreeningConfig) (family : StrategyFamily)
    (vol24h depth5 : Option ℚ) (ok_clob : Bool) : ScreeningResult :=
  let S := S cfg
  let depth5_min := depth5Min cfg family
  let vol24h_min := vol24hMin cfg family
  let exit_risk_max := exitRiskMax cfg family
  if ok_clob = false then
    ⟨false, "NO_CLOB_BOOK", family, S, none, depth5_min, vol24h_min⟩
  else
    match depth5 with
    | none => ⟨false, "NO_CLOB_BOOK", family, S, none, depth5_min, vol24h_min⟩
    | some d =>
      if d < depth5_min then
        ⟨false, "DEPTH_TOO_LOW", family, S, none, depth5_min, vol24h_min⟩
      else
        match vol24h with
        | none => ⟨false, "VOL24H_MISSING", family, S, none, depth5_min, vol24h_min⟩
        | some v =>
          if v < vol24h_min then
            ⟨false, "VOL24H_TOO_LOW", family, S, none, depth5_min, vol24h_min⟩
          else
            let exit_risk := S / max v (1 / 1000000000)
            if exit_risk_max < exit_risk then
              ⟨false, "EXIT_RISK_TOO_HIGH", family, S, some exit_risk, depth5_min, vol24h_min⟩
            else
              ⟨true, "OK", family, S, some exit_risk, depth5_min, vol24h_min⟩

end ScreeningEngine

/-! ## Rolling baseline tracker (`scripts/research_engine.py`, `RollingMedians`) -/

/-- Per-instrument rolling windows of recent spreads and depths. -/
structure RollingMedians where
  spreads : List ℚ
  depths : List ℚ
deriving Repr, DecidableEq

/-- Median extraction, translated from `RollingMedians.medians`: if either
window is empty the method returns `(None, None)`; otherwise each median is
the element at index `len // 2` of that window sorted ascending. -/
def RollingMedians.medians (rm : RollingMedians) : Option ℚ × Option ℚ :=
  if rm.spreads = [] ∨ rm.depths = [] then (none, none)
  else
    let ss := List.insertionSort (· ≤ ·) rm.spreads
    let dd := List.insertionSort (· ≤ ·) rm.depths
    (some (ss.getD (ss.length / 2) 0), some (dd.getD (dd.length / 2) 0))

/-! ## Orchestration step (`scripts/research_engine.py`, `main`) -/

/-- One detector invocation of the research engine's per-market loop body:
`sig = a2_detect(...)` immediately followed by the unconditional state write
`a2_state[market_id] = A2State(last_mid=snap.mid, last_spread=snap.spread,
last_depth5=snap.depth5)`. -/
def research_a2_step (snap_mid snap_spread snap_depth5 med_spread med_depth5 : Option ℚ)
    (st : A2State) (p : A2Params) : A2Signal × A2State :=
  (a2_detect snap_mid snap_spread snap_depth5 med_spread med_depth5 st p,
   { last_mid := snap_mid, last_spread := snap_spread, last_depth5 := snap_depth5 })

/-! ## Bot score (`src/domain/bot_score.py`) -/

/-- Inputs of `botscore_v0`, over `ℝ` since the score uses logarithms. -/
structure BotScoreInputs where
  mid_move_abs : ℝ
  spread : Option ℝ
  depth5 : Option ℝ
  vol24h : ℝ

/-- Bot-likeness score, translated from `botscore_v0` in
`src/domain/bot_score.py`.  Zero or negative volume returns the neutral 0.5;
otherwise four bounded sub-scores are combined with weights
0.30/0.25/0.25/0.20 and the result is clipped to `[0, 1]`
(`np.clip(score, 0.0, 1.0)`). -/
noncomputable def botscore_v0 (inputs : BotScoreInputs) : ℝ :=
  if inputs.vol24h ≤ 0 then 0.5
  else
    let pmwv := inputs.mid_move_abs / max inputs.vol24h (1 / 1000000000)
    let pmwv_score := min 1 (Real.log (1 + pmwv * 10000) / Real.log 10001)
    let spread_score :=
      match inputs.spread with
      | none => 0.5
      | some sp => if sp ≤ 0 then 0.5 else 1 / (1 + sp * 100)
    let depth_score :=
      match inputs.depth5 with
      | none => 0.3
      | some dp =>
        if dp ≤ 0 then 0.3
        else min 1 (Real.log (1 + dp / max inputs.vol24h (1 / 1000000000)) / Real.log 11)
    let stability_score :=
      match inputs.spread with
      | none => 0.5
      | some sp =>
        if sp < 0.002 then 1
        else if sp < 0.01 then 0.7
        else if sp < 0.05 then 0.4
        else 0.2
    let score := 0.30 * pmwv_score + 0.25 * spread_score +
      0.25 * depth_score + 0.20 * stability_score
    max 0 (min 1 score)

namespace BotScoreV0

/-- Regime bucketing, translated from `BotScoreV0.bucket`. -/
def bucket (bot_score : ℚ) : String :=
  if 65/100 ≤ bot_score then "BOT"
  else if bot_score ≤ 40/100 then "HUMAN"
  else "MIXED"

end BotScoreV0

/-- The function `regime_from_score` simply delegates to `BotScoreV0.bucket`. -/
def regime_from_score (bot_score : ℚ) : String := BotScoreV0.bucket bot_score

/-! ## Standalone cascade detector (`a2_detector.py`) -/

/-- Inputs of the standalone detector `A2CascadeDetector.detect`. -/
structure A2Inputs where
  spread_now : ℚ
  spread_med : ℚ
  depth5_now : ℚ
  depth5_med : ℚ
  mid_now : ℚ
  mid_prev : ℚ
  vol_window : ℚ
  sigma_mid_30m : ℚ
  pmwv_history : List ℚ
deriving Repr, DecidableEq

/-- Signal emitted by the standalone detector (its own `A2Signal` dataclass,
distinct from the streaming one). -/
structure A2SignalStandalone where
  is_cascade : Bool
  direction : Option String
  reasons : String
deriving Repr, DecidableEq

/-- Parameters of the standalone detector, with the source's defaults. -/
structure A2CascadeDetector where
  spread_mult : ℚ := 2
  depth_collapse_mult : ℚ := 6/10
  jump_sigma_mult : ℚ := 2
  pmwv_percentile : ℚ := 95/100
deriving Repr, DecidableEq

/-- Model of `np.quantile` with the default linear interpolation method: on the sorted
sample of size `n`, the virtual index is `h = q * (n - 1)` and the result
interpolates between the elements at `⌊h⌋` and `⌊h⌋ + 1` (clamped to the last
index).  Empty input is mapped to 0 (numpy would warn and return NaN; the
source only calls it on histories of size ≥ 30). -/
def npQuantile (xs : List ℚ) (q : ℚ) : ℚ :=
  let s := List.insertionSort (· ≤ ·) xs
  let n := s.length
  if n = 0 then 0
  else
    let h : ℚ := q * ((n : ℚ) - 1)
    let i : ℕ := (⌊h⌋).toNat
    let lo := s.getD i 0
    let hi := s.getD (min (i + 1) (n - 1)) 0
    lo + (h - (i : ℚ)) * (hi - lo)

/-- Condition 1 of the standalone detector: spread expansion. -/
def detSpreadExpansion (c : A2CascadeDetector) (x : A2Inputs) : Bool :=
  decide (0 < x.spread_med ∧ c.spread_mult * x.spread_med ≤ x.spread_now)

/-- Condition 2 of the standalone detector: depth collapse. -/
def detDepthCollapse (c : A2CascadeDetector) (x : A2Inputs) : Bool :=
  decide (0 < x.depth5_med ∧ x.depth5_now ≤ c.depth_collapse_mult * x.depth5_med)

/-- Condition 3 of the standalone detector: mid jump against the 30-minute
mid standard deviation. -/
def detMidJump (c : A2CascadeDetector) (x : A2Inputs) : Bool :=
  decide (0 < x.sigma_mid_30m ∧
    c.jump_sigma_mult * x.sigma_mid_30m ≤ |x.mid_now - x.mid_prev|)

/-- Condition 4 of the standalone detector: PMWV (`dmid / max(vol, 1e-9)`)
at or above the configured percentile of a history of size ≥ 30. -/
def detPmwvExtreme (c : A2CascadeDetector) (x : A2Inputs) : Bool :=
  decide (30 ≤ x.pmwv_history.length ∧
    npQuantile x.pmwv_history c.pmwv_percentile ≤
      |x.mid_now - x.mid_prev| / max x.vol_window (1 / 1000000000))

/-- Number of the standalone detector's four conditions that hold. -/
def detCondCount (c : A2CascadeDetector) (x : A2Inputs) : ℕ :=
  (if detSpreadExpansion c x then 1 else 0) +
  (if detDepthCollapse c x then 1 else 0) +
  (if detMidJump c x then 1 else 0) +
  (if detPmwvExtreme c x then 1 else 0)

/-- Reason tags of the standalone detector, in the source's order. -/
def detReasons (c : A2CascadeDetector) (x : A2Inputs) : List String :=
  (if detSpreadExpansion c x then ["SPREAD_EXPANSION"] else []) ++
  (if detDepthCollapse c x then ["DEPTH_COLLAPSE"] else []) ++
  (if detMidJump c x then ["MID_JUMP"] else []) ++
  (if detPmwvExtreme c x then ["PMWV_EXTREME"] else [])

/-- Standalone cascade detection, translated from `A2CascadeDetector.detect`
in `a2_detector.py`: four conditions (spread expansion, depth collapse, mid
jump against `sigma_mid_30m`, PMWV above the history quantile), cascade iff
at least 3 hold, and on firing the direction is `FADE_UP` for a strictly
positive mid delta and `FADE_DOWN` otherwise. -/
def A2CascadeDetector.detect (c : A2CascadeDetector) (x : A2Inputs) : A2SignalStandalone :=
  if 3 ≤ detCondCount c x then
    ⟨true, some (if 0 < x.mid_now - x.mid_prev then "FADE_UP" else "FADE_DOWN"),
      String.intercalate "," (detReasons c x)⟩
  else
    ⟨false, none, String.intercalate "," (detReasons c x)⟩

/-! ## Helper lemmas -/

/-- Unfolding of `a2_detect` once all five inputs are present. -/
theorem a2_detect_some (m s d ms md : ℚ) (st : A2State) (p : A2Params) :
    a2_detect (some m) (some s) (some d) (some ms) (some md) st p =
      if 2 ≤ a2CondCount m s d ms md st p then
        { fired := true
          direction :=
            match st.last_mid with
            | none => none
            | some lm => some (if 0 < m - lm then "FADE_UP" else "FADE_DOWN")
          strength := min 1 ((a2CondCount m s d ms md st p : ℚ) / 3)
          details := String.intercalate "," (a2Reasons m s d ms md st p) }
      else
        { fired := false
          details := if a2Reasons m s d ms md st p = [] then "NO_CASCADE"
            else String.intercalate "," (a2Reasons m s d ms md st p) } := rfl

/-- The condition count on the spec's worked example is exactly 2. -/
theorem a2CondCount_example :
    a2CondCount (1/2) (25/1000) 500 (1/100) 1000 {} {} = 2 := by
  norm_num [a2CondCount, a2SpreadExpansion, a2DepthCollapse, a2MidJump]

/-- When the state has no previous midpoint, the mid-jump condition is off,
so at most the two baseline conditions can hold. -/
theorem a2CondCount_le_two_of_no_mid (m s d ms md : ℚ) (st : A2State) (p : A2Params)
    (h : st.last_mid = none) : a2CondCount m s d ms md st p ≤ 2 := by
  unfold a2CondCount a2MidJump
  rw [h]
  split_ifs <;> simp_all

/-! ## Claim theorems -/

/-- C1: with all three current fields and both medians present, `a2_detect`
fires iff at least 2 of the 3 conditions (spread expansion, depth collapse,
mid jump) hold, and the strength of a fired signal is `min 1 (count / 3)`;
on the worked example (`median_spread = 0.01`, `curr_spread = 0.025`,
`median_depth5 = 1000`, `curr_depth5 = 500`, no previous midpoint) exactly 2
conditions hold and the detector fires with strength `2/3` and no
direction. -/
theorem C1_a2_detect_fires_iff_two_conditions
    (m s d ms md : ℚ) (st : A2State) (p : A2Params) :
    ((a2_detect (some m) (some s) (some d) (some ms) (some md) st p).fired = true ↔
      2 ≤ a2CondCount m s d ms md st p) ∧
    ((a2_detect (some m) (some s) (some d) (some ms) (some md) st p).strength =
      if 2 ≤ a2CondCount m s d ms md st p
        then min 1 ((a2CondCount m s d ms md st p : ℚ) / 3) else 0) ∧
    a2CondCount (1/2) (25/1000) 500 (1/100) 1000 {} {} = 2 ∧
    a2_detect (some (1/2)) (some (25/1000)) (some 500) (some (1/100)) (some 1000)
      {} {} = { fired := true, direction := none, strength := 2/3,
                details := "SPREAD_EXPANSION,DEPTH_COLLAPSE" } := by
  refine ⟨?_, ?_, a2CondCount_example, a2_detect_example⟩
  · rw [a2_detect_some]
    split_ifs with hc <;> simp [hc]
  · rw [a2_detect_some]
    split_ifs with hc <;> simp [hc]

/-- A fired streaming signal implies all five inputs were present. -/
theorem a2_detect_fired_all_present
    (cm cs cd ms md : Option ℚ) (st : A2State) (p : A2Params)
    (hf : (a2_detect cm cs cd ms md st p).fired = true) :
    ∃ m s d ms' md', cm = some m ∧ cs = some s ∧ cd = some d ∧
      ms = some ms' ∧ md = some md' := by
  cases cm <;> cases cs <;> cases cd <;> cases ms <;> cases md <;>
    simp_all [a2_detect]

/-- C6: whenever the streaming detector fires, the direction is read off the
mid delta when a previous midpoint exists (`FADE_UP` for a strictly positive
delta, `FADE_DOWN` for a negative or zero one), and is `none` when the state
holds no previous midpoint. -/
theorem C6_a2_detect_direction
    (cm cs cd ms md : Option ℚ) (st : A2State) (p : A2Params)
    (hf : (a2_detect cm cs cd ms md st p).fired = true) :
    (st.last_mid = none → (a2_detect cm cs cd ms md st p).direction = none) ∧
    (∀ lm m, st.last_mid = some lm → cm = some m →
      (a2_detect cm cs cd ms md st p).direction =
        some (if 0 < m - lm then "FADE_UP" else "FADE_DOWN")) := by
  obtain ⟨m, s, d, ms', md', rfl, rfl, rfl, rfl, rfl⟩ :=
    a2_detect_fired_all_present cm cs cd ms md st p hf
  rw [a2_detect_some] at hf ⊢
  split_ifs at hf ⊢ with hc
  constructor
  · intro h0
    simp [h0]
  · intro lm m' hlm hm
    cases hm
    simp [hlm]

/-- C6 witness: at a concrete firing input whose state remembers midpoint
0.4 while the current midpoint is 0.5, the direction is `FADE_UP`. -/
theorem C6_a2_detect_direction_witness :
    (a2_detect (some (1/2)) (some (25/1000)) (some 500) (some (1/100)) (some 1000)
      { last_mid := some (4/10) } {}).direction = some "FADE_UP" := by
  have h := C6_a2_detect_direction (some (1/2)) (some (25/1000)) (some 500)
    (some (1/100)) (some 1000) { last_mid := some (4/10) } {}
    (by norm_num [a2_detect, a2CondCount, a2Reasons, a2SpreadExpansion,
      a2DepthCollapse, a2MidJump])
  rw [h.2 (4/10) (1/2) rfl rfl]
  norm_num

/-- C7: `a2_detect` is a total function; any absent current field yields the
non-fired `MISSING_DATA` signal regardless of the medians (so this check
precedes the history check), and with all current fields present an absent
median yields the non-fired `INSUFFICIENT_HISTORY` signal. -/
theorem C7_a2_detect_missing_data
    (cm cs cd ms md : Option ℚ) (st : A2State) (p : A2Params) :
    ((cm = none ∨ cs = none ∨ cd = none) →
      a2_detect cm cs cd ms md st p = { fired := false, details := "MISSING_DATA" }) ∧
    ((cm ≠ none ∧ cs ≠ none ∧ cd ≠ none) → (ms = none ∨ md = none) →
      a2_detect cm cs cd ms md st p =
        { fired := false, details := "INSUFFICIENT_HISTORY" }) := by
  cases cm <;> cases cs <;> cases cd <;> cases ms <;> cases md <;>
    simp [a2_detect]

/-- C7 witness: with every input absent, the detector returns the non-fired
`MISSING_DATA` signal (the history check is not reached). -/
theorem C7_a2_detect_missing_data_witness :
    a2_detect none none none none none {} {} =
      { fired := false, details := "MISSING_DATA" } :=
  (C7_a2_detect_missing_data none none none none none {} {}).1 (Or.inl rfl)

/-- C10: when the state holds no previous midpoint, a fired streaming signal
has strength exactly `2/3` and no direction: the mid-jump condition cannot
hold, so exactly the two baseline conditions must have fired. -/
theorem C10_a2_detect_no_mid_fired
    (cm cs cd ms md : Option ℚ) (st : A2State) (p : A2Params)
    (h0 : st.last_mid = none)
    (hf : (a2_detect cm cs cd ms md st p).fired = true) :
    (a2_detect cm cs cd ms md st p).strength = 2/3 ∧
    (a2_detect cm cs cd ms md st p).direction = none := by
  obtain ⟨m, s, d, ms', md', rfl, rfl, rfl, rfl, rfl⟩ :=
    a2_detect_fired_all_present cm cs cd ms md st p hf
  rw [a2_detect_some] at hf ⊢
  split_ifs at hf ⊢ with hc
  have h2 : a2CondCount m s d ms' md' st p = 2 :=
    le_antisymm (a2CondCount_le_two_of_no_mid m s d ms' md' st p h0) hc
  constructor
  · rw [h2]
    norm_num [min_def]
  · simp [h0]

/-- C10 witness: on the worked example (no previous midpoint) the fired
signal has strength `2/3` and no direction. -/
theorem C10_a2_detect_no_mid_fired_witness :
    (a2_detect (some (1/2)) (some (25/1000)) (some 500) (some (1/100))
      (some 1000) {} {}).strength = 2/3 ∧
    (a2_detect (some (1/2)) (some (25/1000)) (some 500) (some (1/100))
      (some 1000) {} {}).direction = none :=
  C10_a2_detect_no_mid_fired (some (1/2)) (some (25/1000)) (some 500)
    (some (1/100)) (some 1000) {} {} rfl (by rw [a2_detect_example])

/-- C8: each orchestration-side detector invocation stores, as the
instrument's new cascade state, exactly the current observation
`(curr_mid, curr_spread, curr_depth5)`, whatever signal the detector
returned; the signal component is exactly the detector's output on the same
inputs. -/
theorem C8_research_step_state_update
    (snap_mid snap_spread snap_depth5 med_spread med_depth5 : Option ℚ)
    (st : A2State) (p : A2Params) :
    (research_a2_step snap_mid snap_spread snap_depth5 med_spread med_depth5
        st p).2 =
      { last_mid := snap_mid, last_spread := snap_spread,
        last_depth5 := snap_depth5 } ∧
    (research_a2_step snap_mid snap_spread snap_depth5 med_spread med_depth5
        st p).1 =
      a2_detect snap_mid snap_spread snap_depth5 med_spread med_depth5 st p :=
  ⟨rfl, rfl⟩

namespace ScreeningEngine

/-- C2: for both families the screen applies the failure ladder in order with
the first applicable reason winning: no book or absent depth gives
`NO_CLOB_BOOK`; present depth below the family minimum gives `DEPTH_TOO_LOW`;
absent volume gives `VOL24H_MISSING`; volume below the family minimum gives
`VOL24H_TOO_LOW`; otherwise `exit_risk = S / max(vol24h, 1e-9)` is computed
and compared against the family maximum, yielding `EXIT_RISK_TOO_HIGH` or the
successful `OK` result carrying that exit risk. -/
theorem C2_screen_failure_ladder (cfg : ScreeningConfig) (family : StrategyFamily)
    (vol24h depth5 : Option ℚ) (ok_clob : Bool) :
    (ok_clob = false ∨ depth5 = none →
      screen cfg family vol24h depth5 ok_clob =
        ⟨false, "NO_CLOB_BOOK", family, S cfg, none,
          depth5Min cfg family, vol24hMin cfg family⟩) ∧
    (∀ d, ok_clob = true → depth5 = some d → d < depth5Min cfg family →
      screen cfg family vol24h depth5 ok_clob =
        ⟨false, "DEPTH_TOO_LOW", family, S cfg, none,
          depth5Min cfg family, vol24hMin cfg family⟩) ∧
    (∀ d, ok_clob = true → depth5 = some d → ¬d < depth5Min cfg family →
      vol24h = none →
      screen cfg family vol24h depth5 ok_clob =
        ⟨false, "VOL24H_MISSING", family, S cfg, none,
          depth5Min cfg family, vol24hMin cfg family⟩) ∧
    (∀ d v, ok_clob = true → depth5 = some d → ¬d < depth5Min cfg family →
      vol24h = some v → v < vol24hMin cfg family →
      screen cfg family vol24h depth5 ok_clob =
        ⟨false, "VOL24H_TOO_LOW", family, S cfg, none,
          depth5Min cfg family, vol24hMin cfg family⟩) ∧
    (∀ d v, ok_clob = true → depth5 = some d → ¬d < depth5Min cfg family →
      vol24h = some v → ¬v < vol24hMin cfg family →
      exitRiskMax cfg family < S cfg / max v (1 / 1000000000) →
      screen cfg family vol24h depth5 ok_clob =
        ⟨false, "EXIT_RISK_TOO_HIGH", family, S cfg,
          some (S cfg / max v (1 / 1000000000)),
          depth5Min cfg family, vol24hMin cfg family⟩) ∧
    (∀ d v, ok_clob = true → depth5 = some d → ¬d < depth5Min cfg family →
      vol24h = some v → ¬v < vol24hMin cfg family →
      ¬exitRiskMax cfg family < S cfg / max v (1 / 1000000000) →
      screen cfg family vol24h depth5 ok_clob =
        ⟨true, "OK", family, S cfg,
          some (S cfg / max v (1 / 1000000000)),
          depth5Min cfg family, vol24hMin cfg family⟩) := by
  refine ⟨?_, ?_, ?_, ?_, ?_, ?_⟩
  · rintro (rfl | rfl)
    · simp [screen]
    · cases ok_clob <;> simp [screen]
  · rintro d rfl rfl hlt
    simp [screen, hlt]
  · rintro d rfl rfl hge rfl
    simp [screen, hge]
  · rintro d v rfl rfl hge rfl hv
    simp [screen, hge, hv]
  · rintro d v rfl rfl hge rfl hv hr
    rw [one_div] at hr
    simp [screen, hge, hv, hr]
  · rintro d v rfl rfl hge rfl hv hr
    rw [one_div] at hr
    simp [screen, hge, hv, hr]

/-- C2 witness: with `equity = 1000` and the default thresholds
(`S = 10`, family A minimums 80 and 200, exit-risk cap 0.10), a market with
depth 1000, volume 1000 and an open book passes every rung and comes out
`OK` with `exit_risk = S / max(vol24h, 1e-9)`. -/
theorem C2_screen_failure_ladder_witness :
    screen { equity := 1000 } StrategyFamily.A (some 1000) (some 1000) true =
      ⟨true, "OK", StrategyFamily.A, S { equity := 1000 },
        some (S { equity := 1000 } / max 1000 (1 / 1000000000)),
        depth5Min { equity := 1000 } StrategyFamily.A,
        vol24hMin { equity := 1000 } StrategyFamily.A⟩ :=
  (C2_screen_failure_ladder { equity := 1000 } StrategyFamily.A
    (some 1000) (some 1000) true).2.2.2.2.2 1000 1000 rfl rfl
    (by norm_num [depth5Min, S])
    rfl
    (by norm_num [vol24hMin, S])
    (by rw [show ((1000:ℚ) ⊔ (1 / 1000000000)) = 1000 by
          exact max_eq_left (by norm_num)]
        norm_num [exitRiskMax, S])

end ScreeningEngine

/-- C3 counterexample: with an empty spread window and depth window `[5]`,
`medians` returns `(none, none)` — the depth median is `none` even though the
depth window is nonempty and its sorted lower-middle element is `5`, so the
two baselines are not handled independently of each other. -/
theorem C3_medians_counterexample :
    RollingMedians.medians { spreads := [], depths := [5] } = (none, none) ∧
    (List.insertionSort (· ≤ ·) [(5:ℚ)]).getD
      ((List.insertionSort (· ≤ ·) [(5:ℚ)]).length / 2) 0 = 5 := by
  constructor
  · simp [RollingMedians.medians]
  · rfl

/-- C3 (amended): `medians` returns `(none, none)` as soon as either window
is empty; when both are nonempty, each component is the element at index
`len // 2` of that window sorted ascending, and the window `[1,2,3,4,5]`
yields median `3`. -/
theorem C3_medians_amended (rm : RollingMedians) :
    (rm.spreads = [] ∨ rm.depths = [] → rm.medians = (none, none)) ∧
    (rm.spreads ≠ [] → rm.depths ≠ [] →
      rm.medians =
        (some ((List.insertionSort (· ≤ ·) rm.spreads).getD
          ((List.insertionSort (· ≤ ·) rm.spreads).length / 2) 0),
         some ((List.insertionSort (· ≤ ·) rm.depths).getD
          ((List.insertionSort (· ≤ ·) rm.depths).length / 2) 0))) ∧
    RollingMedians.medians { spreads := [1,2,3,4,5], depths := [1,2,3,4,5] } =
      (some 3, some 3) := by
  refine ⟨?_, ?_, by decide⟩
  · rintro (h | h) <;> simp [RollingMedians.medians, h]
  · intro h1 h2
    simp [RollingMedians.medians, h1, h2]

/-- C3 witness: on nonempty windows `[1,2,3,4,5]` and `[9]`, `medians`
returns the sorted lower-middle element of each window. -/
theorem C3_medians_amended_witness :
    RollingMedians.medians { spreads := [1,2,3,4,5], depths := [9] } =
      (some ((List.insertionSort (· ≤ ·) [(1:ℚ),2,3,4,5]).getD
        ((List.insertionSort (· ≤ ·) [(1:ℚ),2,3,4,5]).length / 2) 0),
       some ((List.insertionSort (· ≤ ·) [(9:ℚ)]).getD
        ((List.insertionSort (· ≤ ·) [(9:ℚ)]).length / 2) 0)) :=
  (C3_medians_amended { spreads := [1,2,3,4,5], depths := [9] }).2.1
    (by decide) (by decide)

/-- C4: the bot score is bounded: for every input, `0 ≤ botscore_v0 ≤ 1`
(the no-volume branch returns the neutral 0.5 and every other result passes
through the final clip to `[0, 1]`). -/
theorem C4_botscore_bounded (inputs : BotScoreInputs) :
    0 ≤ botscore_v0 inputs ∧ botscore_v0 inputs ≤ 1 := by
  unfold botscore_v0
  split_ifs with h
  · norm_num
  · dsimp only
    exact ⟨le_max_left 0 _, max_le (by norm_num) (min_le_left 1 _)⟩

/-- C5: regime bucketing returns `BOT` iff the score is at least 0.65,
`HUMAN` iff it is at most 0.40, and `MIXED` exactly on the open interval in
between; both boundary values are inclusive. -/
theorem C5_regime_boundaries (s : ℚ) :
    (regime_from_score s = "BOT" ↔ 65/100 ≤ s) ∧
    (regime_from_score s = "HUMAN" ↔ s ≤ 40/100) ∧
    (regime_from_score s = "MIXED" ↔ 40/100 < s ∧ s < 65/100) := by
  unfold regime_from_score BotScoreV0.bucket
  split_ifs with h1 h2
  · exact ⟨iff_of_true rfl h1,
      iff_of_false (by decide) (by intro hle; linarith),
      iff_of_false (by decide) (fun ⟨_, hlt⟩ => absurd h1 (not_le.mpr hlt))⟩
  · exact ⟨iff_of_false (by decide) h1,
      iff_of_true rfl h2,
      iff_of_false (by decide) (fun ⟨hlt, _⟩ => absurd h2 (not_le.mpr hlt))⟩
  · exact ⟨iff_of_false (by decide) h1,
      iff_of_false (by decide) h2,
      iff_of_true rfl ⟨not_le.mp h2, not_le.mp h1⟩⟩

/-- Inserting 0 into a run of zeros extends the run. -/
theorem orderedInsert_zero_replicate (k : ℕ) :
    List.orderedInsert (· ≤ ·) (0:ℚ) (List.replicate k 0) =
      List.replicate (k+1) 0 := by
  cases k with
  | zero => rfl
  | succ n => simp [List.replicate_succ, List.orderedInsert]

/-- Sorting a run of zeros is a no-op. -/
theorem insertionSort_zero_replicate (n : ℕ) :
    List.insertionSort (· ≤ ·) (List.replicate n (0:ℚ)) = List.replicate n 0 := by
  induction n with
  | zero => rfl
  | succ k ih =>
    simp [List.replicate_succ, List.insertionSort, ih, orderedInsert_zero_replicate]

/-- Any lookup with default 0 in a run of zeros gives 0. -/
theorem getD_replicate_zero (n i : ℕ) :
    (List.replicate n (0:ℚ)).getD i 0 = 0 := by
  induction n generalizing i with
  | zero => simp
  | succ k ih => cases i <;> simp [List.replicate_succ, ih]

/-- Any quantile of a nonempty history of zeros is 0. -/
theorem npQuantile_replicate_zero (n : ℕ) (q : ℚ) (hn : n ≠ 0) :
    npQuantile (List.replicate n (0:ℚ)) q = 0 := by
  unfold npQuantile
  dsimp only
  rw [insertionSort_zero_replicate, List.length_replicate, if_neg hn]
  simp only [getD_replicate_zero]
  ring

/-- A concrete input for the standalone detector: spread doubled, depth
halved, mid unchanged, all-zero PMWV history of size 30. -/
def c9x : A2Inputs :=
  { spread_now := 2/100, spread_med := 1/100, depth5_now := 500,
    depth5_med := 1000, mid_now := 1/2, mid_prev := 1/2, vol_window := 100,
    sigma_mid_30m := 1, pmwv_history := List.replicate 30 0 }

/-- Full evaluation of the standalone detector on `c9x`: spread expansion,
depth collapse and PMWV extreme hold, the mid delta is exactly zero, and the
fired signal carries direction `FADE_DOWN`. -/
theorem detect_c9x :
    A2CascadeDetector.detect {} c9x =
      ⟨true, some "FADE_DOWN", "SPREAD_EXPANSION,DEPTH_COLLAPSE,PMWV_EXTREME"⟩ := by
  unfold A2CascadeDetector.detect
  norm_num [detCondCount, detReasons, detSpreadExpansion, detDepthCollapse,
    detMidJump, detPmwvExtreme, c9x, npQuantile_replicate_zero]
  rfl

/-- C9 counterexample: on `c9x` the standalone detector fires (three of its
four conditions hold) with a mid delta of exactly zero, and the assigned
direction is `FADE_DOWN`, not `FADE_UP` — the zero-delta default is the
downward direction, because `FADE_UP` needs a strictly positive delta. -/
theorem C9_standalone_zero_delta_counterexample :
    (A2CascadeDetector.detect {} c9x).is_cascade = true ∧
    c9x.mid_now - c9x.mid_prev = 0 ∧
    (A2CascadeDetector.detect {} c9x).direction = some "FADE_DOWN" ∧
    ¬(A2CascadeDetector.detect {} c9x).direction = some "FADE_UP" := by
  rw [detect_c9x]
  refine ⟨rfl, by norm_num [c9x], rfl, by simp⟩

/-- C9 (amended): whenever the standalone detector fires, a direction is
always assigned (never null); when the mid delta `mid_now - mid_prev` is
exactly zero the assigned direction defaults to the downward one
(`FADE_DOWN`), and a strictly positive delta gives `FADE_UP`. -/
theorem C9_standalone_direction (c : A2CascadeDetector) (x : A2Inputs)
    (hf : (A2CascadeDetector.detect c x).is_cascade = true) :
    (A2CascadeDetector.detect c x).direction ≠ none ∧
    (x.mid_now - x.mid_prev = 0 →
      (A2CascadeDetector.detect c x).direction = some "FADE_DOWN") ∧
    (0 < x.mid_now - x.mid_prev →
      (A2CascadeDetector.detect c x).direction = some "FADE_UP") := by
  unfold A2CascadeDetector.detect at hf ⊢
  split_ifs at hf ⊢ with hc hd
  · exact ⟨by simp, fun h0 => by rw [h0] at hd; exact absurd hd (lt_irrefl 0),
      fun _ => rfl⟩
  · exact ⟨by simp, fun _ => rfl, fun hp => absurd hp hd⟩

/-- C9 witness: on the firing zero-delta input `c9x` the amended direction
rule yields `FADE_DOWN`. -/
theorem C9_standalone_direction_witness :
    (A2CascadeDetector.detect {} c9x).direction = some "FADE_DOWN" :=
  (C9_standalone_direction {} c9x (by rw [detect_c9x])).2.1 (by norm_num [c9x])
